import Mathlib

/-!
Shallow embedding of `src/crew_ai_financial_daily_summary.py` (a daily
financial-news digest pipeline) and verification of its specification
claims.  Python dictionary values retrieved with `.get` are modelled as
`Option String` (`none` = absent / `None`); Python truthiness of strings
("" and `None` are falsy) is modelled by `pyTruthy` / `pyOr`.  External
effects (search calls, LLM transport, image fetches, the Telegram post)
are modelled as oracle fields of an `Env` record, and raised exceptions
as `Except` values.
-/

namespace DailySummary

/-- Python truthiness of an optional string: `None` and `""` are falsy. -/
def pyTruthy : Option String → Bool
  | none => false
  | some s => !(s == "")

/-- Python `a or b` on optional strings: returns `a` when truthy, else `b`. -/
def pyOr (a b : Option String) : Option String :=
  if pyTruthy a then a else b

/-- Python `f"...{v}..."` interpolation of an optional string (`None` prints as "None"). -/
def pyStr : Option String → String
  | none => "None"
  | some s => s

/-- Python `str.capitalize()`: first character uppercased, the rest lowercased. -/
def pyCapitalize (s : String) : String :=
  match s.data with
  | [] => ""
  | c :: cs => String.mk (c.toUpper :: cs.map Char.toLower)

/-- Python `str.lower()`, as a character-wise map. -/
def pyLower (s : String) : String := String.mk (s.data.map Char.toLower)

/-- Helper for `pySplitLines`: splits a character list on newline characters,
keeping empty segments. -/
def splitLinesAux : List Char → List Char → List String
  | [], acc => [String.mk acc.reverse]
  | c :: cs, acc =>
    if c = '\n' then String.mk acc.reverse :: splitLinesAux cs []
    else splitLinesAux cs (c :: acc)

/-- Python `text.split("\n")`: splits on newlines, keeping empty segments
(the empty string yields one empty segment). -/
def pySplitLines (s : String) : List String := splitLinesAux s.data []

/-- A raw news item as produced by the search providers: the Python dict
`{title, link, snippet, image}`, each value possibly absent. -/
structure NewsItem where
  title : Option String
  link : Option String
  snippet : Option String
  image : Option String
deriving DecidableEq, Repr

/-- The JSON body of a successful LLM HTTP response, as consumed by
`litellm_generate`: `data.get("text")`, `data.get("generated_text")`, and the
`json.dumps(data)` fallback. -/
structure LLMResponse where
  text : Option String
  generated_text : Option String
  dumped : String
deriving DecidableEq, Repr

/-- `litellm_generate`: with no API key returns the mock echo of the first 400
characters of the prompt; otherwise consults the transport outcome — a raised
transport exception is caught and turned into an "[LLM_ERROR] " tagged string,
and a successful response yields `text or generated_text or json.dumps(data)`.
Total: it returns a `String` for every input. -/
def litellm_generate (apiKey : String) (transport : Except String LLMResponse)
    (prompt : String) : String :=
  if apiKey == "" then
    "[MOCK LLM RESPONSE] " ++ (prompt.take 400 ++ "...")
  else
    match transport with
    | .error e => "[LLM_ERROR] " ++ e
    | .ok data => pyStr (pyOr data.text (pyOr data.generated_text (some data.dumped)))

/-- One numbered context line of the summary prompt:
`f"{i}. {title} - {snippet or ''} ({link})"`. -/
def contextLine (i : Nat) (r : NewsItem) : String :=
  toString i ++ ". " ++ pyStr r.title ++ " - "
    ++ pyStr (pyOr r.snippet (some "")) ++ " (" ++ pyStr r.link ++ ")"

/-- The summarizer prompt built from the first six results. -/
def summaryPrompt (results : List NewsItem) : String :=
  "You are a succinct financial news summarizer. Given the following search results from US financial news, "
    ++ "write a short, clear summary (under 500 words) focused on the most important market moves, drivers, "
    ++ "and trading activity. Use 3 short bullets and a 2-4 sentence paragraph. Do not invent facts; if uncertain, say 'reported'.\n\n"
    ++ "CONTEXT:\n"
    ++ String.intercalate "\n"
         ((results.take 6).enum.map (fun p => contextLine (p.1 + 1) p.2))
    ++ "\n\nOUTPUT:\n"

/-- The fixed sentinel digest for an empty result set. -/
def noResultsSentinel : String := "No results found in the last hour."

/-- `summary_agent_generate`: returns the digest together with the number of
generation calls issued (the shallow embedding of the outbound-call effect). -/
def summary_agent_generate (gen : String → String) (results : List NewsItem) :
    String × Nat :=
  if results.isEmpty then (noResultsSentinel, 0)
  else (gen (summaryPrompt results), 1)

/-- The translation prompt of `translating_agent_translate`. -/
def translatePrompt (text targetLang : String) : String :=
  let langCode := (List.lookup (pyLower targetLang)
      [("arabic", "ar"), ("hindi", "hi"), ("hebrew", "he")]).getD targetLang
  "Translate the following summary into " ++ targetLang
    ++ " (language code: " ++ langCode ++ "). \n"
    ++ "Preserve the original formatting (bullets, short paragraphs). Do not add or remove content.\n\n"
    ++ "ORIGINAL:\n" ++ text ++ "\n\nTRANSLATED:\n"

/-- `translating_agent_translate`: one generation call. -/
def translating_agent_translate (gen : String → String) (text targetLang : String) :
    String :=
  gen (translatePrompt text targetLang)

/-- The dedupe key of `search_agent_us_financial_news`:
`r.get("link") or r.get("title")`. -/
def dedupeKey (r : NewsItem) : Option String :=
  pyOr r.link r.title

/-- The dedupe loop of `search_agent_us_financial_news`, with the `seen` set
modelled as a list of already-seen keys. -/
def dedupeAux (seen : List (Option String)) : List NewsItem → List NewsItem
  | [] => []
  | r :: rs =>
    if dedupeKey r ∈ seen then dedupeAux seen rs
    else r :: dedupeAux (dedupeKey r :: seen) rs

/-- The merge-and-dedupe step of `search_agent_us_financial_news`, applied to
the concatenation of the two provider result lists. -/
def search_agent_merge (results : List NewsItem) : List NewsItem :=
  dedupeAux [] results

/-- The deterministically numbered placeholder image URL. -/
def placeholderUrl (n : Nat) : String :=
  "https://via.placeholder.com/800x400.png?text=Financial+Chart+" ++ toString n

/-- The collection loop of `select_images_from_results`: walk the results,
append each truthy image URL, and break as soon as the quota check
`len(images) >= max_images` (run every iteration, after the conditional
append) succeeds. -/
def selectImagesAux (maxImages : Nat) : List NewsItem → List String → List String
  | [], images => images
  | r :: rs, images =>
    let images1 := if pyTruthy r.image then images ++ [pyStr r.image] else images
    if maxImages ≤ images1.length then images1
    else selectImagesAux maxImages rs images1

/-- The padding loop of `select_images_from_results`, with its termination
measure `maxImages - len(images)` made explicit as structural fuel (each
iteration appends one element, so the fuel is exactly the number of remaining
iterations of the `while` loop). -/
def padImagesFuel : Nat → Nat → List String → List String
  | 0, _, images => images
  | fuel + 1, maxImages, images =>
    if images.length < maxImages then
      padImagesFuel fuel maxImages (images ++ [placeholderUrl (images.length + 1)])
    else images

/-- The padding loop of `select_images_from_results`: while the quota is not
reached, append a placeholder numbered `len(images) + 1`. -/
def padImages (maxImages : Nat) (images : List String) : List String :=
  padImagesFuel (maxImages - images.length) maxImages images

/-- `select_images_from_results`. -/
def select_images_from_results (results : List NewsItem) (maxImages : Nat := 2) :
    List String :=
  padImages maxImages (selectImagesAux maxImages results [])

/-- A drawing operation on the reportlab canvas.  The sequence of operations
issued before `c.save()` is the deterministic content of the PDF. -/
inductive PdfOp where
  | setFont (name : String) (size : Nat)
  | drawString (x y : Int) (s : String)
  | showPage
  | drawImage (url : String) (x y w h : Int)
  | save
deriving DecidableEq, Repr

/-- Page height of `letter` (792 points). -/
def PAGE_H : Int := 792

/-- The fixed page margin. -/
def MARGIN : Int := 40

/-- The initial cursor position `h - margin`. -/
def PAGE_TOP : Int := PAGE_H - MARGIN

/-- The line loop of `draw_text_block`: for each line, page-break when
`y < margin + 50`, draw the line truncated to 120 characters, and move down
14 points.  Returns the emitted operations and the final cursor. -/
def drawLines (y : Int) : List String → List PdfOp × Int
  | [] => ([], y)
  | line :: rest =>
    let pageOps : List PdfOp × Int :=
      if y < MARGIN + 50 then ([PdfOp.showPage], PAGE_TOP) else ([], y)
    let y1 := pageOps.2
    let lineOps := pageOps.1 ++ [PdfOp.drawString MARGIN y1 (line.take 120)]
    let restR := drawLines (y1 - 14) rest
    (lineOps ++ restR.1, restR.2)

/-- `draw_text_block`: bold 14pt title, 18 points down, 11pt body lines split
on newlines, then 10 further points down. -/
def drawTextBlock (y : Int) (title text : String) : List PdfOp × Int :=
  let header : List PdfOp :=
    [PdfOp.setFont "Helvetica-Bold" 14, PdfOp.drawString MARGIN y title]
  let body := drawLines (y - 18) (pySplitLines text)
  (header ++ [PdfOp.setFont "Helvetica" 11] ++ body.1, body.2 - 10)

/-- The first-image placement of `create_pdf`: `images[0]` is fetched inside a
`try` (an out-of-range index or a failed fetch is caught and skipped), drawn at
`(margin, y - 310)` with size 500x300, and the cursor moves down 320. -/
def firstImageOps (images : List String) (fetchOk : String → Bool) (y : Int) :
    List PdfOp × Int :=
  match images.head? with
  | none => ([], y)
  | some u =>
    if fetchOk u then ([PdfOp.drawImage u MARGIN (y - 310) 500 300], y - 320)
    else ([], y)

/-- The second-image placement attempt of `create_pdf`: fetch `images[1]`
(failures caught and skipped), page-break when `y < margin + 320`, draw at
`(margin, y - 310)` with size 500x300, cursor down 320. -/
def secondImageOps (images : List String) (fetchOk : String → Bool) (y : Int) :
    List PdfOp × Int :=
  match images.get? 1 with
  | none => ([], y)
  | some u =>
    if fetchOk u then
      let pb : List PdfOp × Int :=
        if y < MARGIN + 320 then ([PdfOp.showPage], PAGE_TOP) else ([], y)
      (pb.1 ++ [PdfOp.drawImage u MARGIN (pb.2 - 310) 500 300], pb.2 - 320)
    else ([], y)

/-- The language loop of `create_pdf`: `for i, (lang, text) in
enumerate(summary_texts_by_lang.items())` — English entries are skipped
(`continue`), every other entry is drawn as a capitalized titled block, and
after the block at whole-iteration index 1 the second image is attempted when
`len(images) > 1`. -/
def langLoop (fetchOk : String → Bool) (images : List String) :
    Nat → Int → List (String × String) → List PdfOp × Int
  | _, y, [] => ([], y)
  | i, y, (lang, text) :: rest =>
    if pyLower lang == "english" || pyLower lang == "en" then
      langLoop fetchOk images (i + 1) y rest
    else
      let block := drawTextBlock y (pyCapitalize lang ++ " Summary") text
      let afterImg :=
        if i == 1 && decide (1 < images.length) then
          secondImageOps images fetchOk block.2
        else ([], block.2)
      let restR := langLoop fetchOk images (i + 1) afterImg.2 rest
      (block.1 ++ afterImg.1 ++ restR.1, restR.2)

/-- `create_pdf`: the English block (`summary_texts_by_lang.get("english") or
summary_texts_by_lang.get("en")` — raises, modelled as `.error ()`, when that
lookup is `None`), then the first image, then the language loop over the whole
map starting at index 0, then `c.save()`. -/
def create_pdf (summaryTextsByLang : List (String × String)) (images : List String)
    (fetchOk : String → Bool) : Except Unit (List PdfOp) :=
  match pyOr (List.lookup "english" summaryTextsByLang)
      (List.lookup "en" summaryTextsByLang) with
  | none => .error ()
  | some eng =>
    let engBlock := drawTextBlock PAGE_TOP "English Summary" eng
    let img1 := firstImageOps images fetchOk engBlock.2
    let body := langLoop fetchOk images 0 img1.2 summaryTextsByLang
    .ok (engBlock.1 ++ img1.1 ++ body.1 ++ [PdfOp.save])

/-- `send_to_telegram`: with missing credentials returns `false` with zero
delivery attempts; otherwise one attempt whose outcome is the posted status
code (a raised transport exception propagates, modelled as `.error`), and the
returned boolean is `status_code == 200`.  The second component counts
delivery attempts. -/
def send_to_telegram (botToken channelId : String) (post : Except String Nat) :
    Except String Bool × Nat :=
  if botToken == "" || channelId == "" then (.ok false, 0)
  else
    match post with
    | .error e => (.error e, 1)
    | .ok status => (.ok (status == 200), 1)

/-- The environment of external oracles one pipeline run consults: the two
search-provider call outcomes, the LLM credentials and per-call transport
outcomes, the image-fetch oracle, the Telegram credentials and post outcome,
and the current date string. -/
structure Env where
  tavily : Except String (List NewsItem)
  serper : Except String (List NewsItem)
  llmKey : String
  llmTransport : Nat → Except String LLMResponse
  fetchOk : String → Bool
  botToken : String
  channelId : String
  post : Except String Nat
  today : String

/-- The observable effects of one run: generation calls issued, documents
persisted (path and content operations), and delivery attempts made. -/
structure Trace where
  llmCalls : Nat
  pdfSaved : List (String × List PdfOp)
  publishAttempts : Nat
deriving DecidableEq, Repr

/-- `search_agent_us_financial_news`: each provider call is tried
independently, a raised exception contributes zero results, and the
concatenation is deduplicated. -/
def search_agent (env : Env) : List NewsItem :=
  let r1 := match env.tavily with | .ok l => l | .error _ => []
  let r2 := match env.serper with | .ok l => l | .error _ => []
  search_agent_merge (r1 ++ r2)

/-- The deduplicated result set of a run. -/
def flowResults (env : Env) : List NewsItem := search_agent env

/-- The generation capability as seen by the n-th LLM call of a run. -/
def flowGen (env : Env) (n : Nat) : String → String :=
  fun prompt => litellm_generate env.llmKey (env.llmTransport n) prompt

/-- The English summary digest of a run (LLM call 0). -/
def flowSummary (env : Env) : String :=
  (summary_agent_generate (flowGen env 0) (flowResults env)).1

/-- The image set of a run. -/
def flowImages (env : Env) : List String :=
  select_images_from_results (flowResults env) 2

/-- The language-to-digest map of a run: English first, then the three fixed
target languages (LLM calls 1, 2, 3). -/
def flowLangMap (env : Env) : List (String × String) :=
  [("english", flowSummary env),
   ("arabic", translating_agent_translate (flowGen env 1) (flowSummary env) "arabic"),
   ("hindi", translating_agent_translate (flowGen env 2) (flowSummary env) "hindi"),
   ("hebrew", translating_agent_translate (flowGen env 3) (flowSummary env) "hebrew")]

/-- The render outcome of a run. -/
def flowPdf (env : Env) : Except Unit (List PdfOp) :=
  create_pdf (flowLangMap env) (flowImages env) env.fetchOk

/-- The publish outcome of a run. -/
def flowSend (env : Env) : Except String Bool × Nat :=
  send_to_telegram env.botToken env.channelId env.post

/-- `crewai_flow_run`: early-exits with `false` on an empty deduplicated
result set; otherwise summarizes, selects images, translates, renders and
publishes.  Any uncaught exception (here: a render failure or a raised
publish transport error) is caught at the top level and yields `false`;
otherwise the run returns `true` regardless of the publish boolean. -/
def crewai_flow_run (env : Env) : Bool × Trace :=
  let results := flowResults env
  if results.isEmpty then (false, ⟨0, [], 0⟩)
  else
    let sc := (summary_agent_generate (flowGen env 0) results).2
    let path := "daily_summary_" ++ env.today ++ ".pdf"
    match flowPdf env with
    | .error _ => (false, ⟨sc + 3, [], 0⟩)
    | .ok ops =>
      match flowSend env with
      | (.error _, n) => (false, ⟨sc + 3, [(path, ops)], n⟩)
      | (.ok _, n) => (true, ⟨sc + 3, [(path, ops)], n⟩)

/-- Whether an `Except` value is a success (no exception was raised). -/
def exceptIsOk : Except ε α → Bool
  | .ok _ => true
  | .error _ => false

/-- Whether a canvas operation draws an image. -/
def isImageOp : PdfOp → Bool
  | .drawImage _ _ _ _ _ => true
  | _ => false

/-- The number of image-drawing operations in a list of canvas operations. -/
def imageOpCount (ops : List PdfOp) : Nat :=
  ops.countP isImageOp

/-- Whether a canvas operation draws the image fetched from a given URL. -/
def isImageOpFor (u : String) : PdfOp → Bool
  | .drawImage v _ _ _ _ => v == u
  | _ => false

/-- Whether a canvas operation draws a given title string. -/
def isTitleOp (t : String) : PdfOp → Bool
  | .drawString _ _ s => s == t
  | _ => false

/-- The content operations of a render outcome (empty when the render raised). -/
def opsOfExcept : Except Unit (List PdfOp) → List PdfOp
  | .ok ops => ops
  | .error _ => []

/-- C9: the generation-capability wrapper never raises — it is a total
function into `String` — and with an empty API key it returns the
deterministic mock echo of the first 400 characters of the prompt, while a
raised transport exception is absorbed into an "[LLM_ERROR] "-prefixed
string. -/
theorem litellm_generate_spec (apiKey : String)
    (transport : Except String LLMResponse) (prompt : String) :
    (apiKey = "" → litellm_generate apiKey transport prompt
      = "[MOCK LLM RESPONSE] " ++ (prompt.take 400 ++ "...")) ∧
    (∀ e, apiKey ≠ "" → transport = .error e →
      litellm_generate apiKey transport prompt = "[LLM_ERROR] " ++ e) := by
  constructor
  · intro h
    subst h
    rfl
  · intro e hk ht
    subst ht
    simp [litellm_generate, hk]

/-- Witness for C9 at concrete inputs. -/
theorem litellm_generate_spec_witness :
    litellm_generate "" (.ok ⟨none, none, "d"⟩) "p"
      = "[MOCK LLM RESPONSE] " ++ ("p".take 400 ++ "...")
    ∧ litellm_generate "k" (.error "x") "p" = "[LLM_ERROR] " ++ "x" :=
  ⟨(litellm_generate_spec "" (.ok ⟨none, none, "d"⟩) "p").1 rfl,
   (litellm_generate_spec "k" (.error "x") "p").2 "x" (by decide) rfl⟩

/-- C8: summarization of an empty result set returns the fixed sentinel with
zero generation calls; a non-empty result set issues exactly one generation
call, and the prompt depends only on the first six items. -/
theorem summary_agent_spec (gen : String → String) (results : List NewsItem) :
    (results = [] → summary_agent_generate gen results = (noResultsSentinel, 0)) ∧
    (results ≠ [] →
      summary_agent_generate gen results = (gen (summaryPrompt results), 1)
      ∧ summaryPrompt results = summaryPrompt (results.take 6)) := by
  constructor
  · intro h
    subst h
    rfl
  · intro h
    refine ⟨?_, ?_⟩
    · simp [summary_agent_generate, List.isEmpty_iff, h]
    · unfold summaryPrompt
      rw [List.take_take]
      norm_num

/-- Witness for C8: the empty-set sentinel and the single-call non-empty case
at concrete inputs. -/
theorem summary_agent_spec_witness :
    summary_agent_generate (fun _ => "g") [] = (noResultsSentinel, 0)
    ∧ (summary_agent_generate (fun _ => "g") [⟨some "t", some "l", none, none⟩]).2 = 1 := by
  refine ⟨(summary_agent_spec (fun _ => "g") []).1 rfl, ?_⟩
  have h := (summary_agent_spec (fun _ => "g") [⟨some "t", some "l", none, none⟩]).2
    (by decide)
  rw [h.1]

/-- C6: the publish operation returns `false` with zero delivery attempts when
either credential is absent; otherwise it makes exactly one delivery attempt,
and when the endpoint responds it returns `true` exactly for status 200. -/
theorem send_to_telegram_spec (bt cid : String) (post : Except String Nat) :
    ((bt = "" ∨ cid = "") → send_to_telegram bt cid post = (.ok false, 0)) ∧
    (bt ≠ "" → cid ≠ "" →
      (send_to_telegram bt cid post).2 = 1 ∧
      ∀ code, post = .ok code →
        ((send_to_telegram bt cid post).1 = .ok true ↔ code = 200)) := by
  constructor
  · intro h
    rcases h with h | h <;> subst h <;> simp [send_to_telegram]
  · intro hb hc
    have hcond : (bt == "" || cid == "") = false := by
      simp [hb, hc]
    constructor
    · unfold send_to_telegram
      rw [hcond]
      cases post <;> rfl
    · intro code hpost
      subst hpost
      unfold send_to_telegram
      rw [hcond]
      simp only [Bool.false_eq_true, if_false]
      constructor
      · intro h
        have : (code == 200) = true := by
          simpa using h
        simpa using this
      · intro h
        subst h
        rfl

/-- Witness for C6: missing credentials, a success response, and a non-success
response, at concrete inputs. -/
theorem send_to_telegram_spec_witness :
    send_to_telegram "" "c" (.ok 200) = (.ok false, 0)
    ∧ (send_to_telegram "b" "c" (.ok 200)).2 = 1
    ∧ ((send_to_telegram "b" "c" (.ok 200)).1 = .ok true ↔ (200 : Nat) = 200)
    ∧ ((send_to_telegram "b" "c" (.ok 404)).1 = .ok true ↔ (404 : Nat) = 200) :=
  ⟨(send_to_telegram_spec "" "c" (.ok 200)).1 (Or.inl rfl),
   ((send_to_telegram_spec "b" "c" (.ok 200)).2 (by decide) (by decide)).1,
   ((send_to_telegram_spec "b" "c" (.ok 200)).2 (by decide) (by decide)).2 200 rfl,
   ((send_to_telegram_spec "b" "c" (.ok 404)).2 (by decide) (by decide)).2 404 rfl⟩

/-- C7: when both provider calls return empty lists the run returns `false`
and no later stage runs — zero generation calls, no document persisted, zero
delivery attempts. -/
theorem flow_empty_providers_spec (env : Env)
    (ht : env.tavily = .ok []) (hs : env.serper = .ok []) :
    crewai_flow_run env = (false, ⟨0, [], 0⟩) := by
  have hres : flowResults env = [] := by
    simp [flowResults, search_agent, ht, hs, search_agent_merge, dedupeAux]
  simp [crewai_flow_run, hres]

/-- Witness for C7 at a concrete environment. -/
theorem flow_empty_providers_spec_witness :
    crewai_flow_run
      { tavily := .ok [], serper := .ok [], llmKey := "",
        llmTransport := fun _ => .error "e", fetchOk := fun _ => false,
        botToken := "", channelId := "", post := .ok 200, today := "d" }
      = (false, ⟨0, [], 0⟩) :=
  flow_empty_providers_spec _ rfl rfl

/-- The truthy image URLs of a result list, in order. -/
def truthyImages (rs : List NewsItem) : List String :=
  rs.filterMap (fun r => if pyTruthy r.image then some (pyStr r.image) else none)

/-- When the quota is not yet reached, the collection loop gathers exactly the
first `k` truthy image URLs (or all of them, if fewer). -/
theorem selectImagesAux_eq (k : Nat) : ∀ (rs : List NewsItem) (images : List String),
    images.length < k →
    selectImagesAux k rs images = (images ++ truthyImages rs).take k := by
  intro rs
  induction rs with
  | nil =>
    intro images h
    simp [selectImagesAux, truthyImages, List.take_of_length_le (Nat.le_of_lt h)]
  | cons r rs ih =>
    intro images h
    simp only [selectImagesAux]
    by_cases hi : pyTruthy r.image
    · simp only [hi, if_pos]
      have htr : truthyImages (r :: rs) = pyStr r.image :: truthyImages rs := by
        simp [truthyImages, hi]
      by_cases hk : k ≤ (images ++ [pyStr r.image]).length
      · rw [if_pos hk]
        have hlen : (images ++ [pyStr r.image]).length = k := by
          simp only [List.length_append, List.length_singleton] at hk ⊢
          omega
        rw [htr, show images ++ pyStr r.image :: truthyImages rs
              = (images ++ [pyStr r.image]) ++ truthyImages rs by simp]
        rw [List.take_left' hlen]
      · rw [if_neg hk]
        rw [ih _ (by simp only [List.length_append, List.length_singleton] at hk ⊢; omega)]
        rw [htr]
        congr 1
        simp
    · simp only [hi, if_neg, Bool.false_eq_true, if_false]
      have hng : ¬ k ≤ images.length := by omega
      rw [if_neg hng, ih _ h]
      have htr : truthyImages (r :: rs) = truthyImages rs := by
        simp [truthyImages, hi]
      rw [htr]

/-- The fuelled padding loop, given enough fuel, appends exactly the
deterministically numbered placeholders needed to reach the quota. -/
theorem padImagesFuel_eq : ∀ (fuel maxI : Nat) (images : List String),
    maxI ≤ images.length + fuel →
    padImagesFuel fuel maxI images
      = images ++ (List.range (maxI - images.length)).map
          (fun j => placeholderUrl (images.length + 1 + j)) := by
  intro fuel
  induction fuel with
  | zero =>
    intro maxI images h
    simp only [Nat.add_zero] at h
    simp [padImagesFuel, Nat.sub_eq_zero_of_le h]
  | succ fuel ih =>
    intro maxI images h
    simp only [padImagesFuel]
    by_cases hlt : images.length < maxI
    · rw [if_pos hlt]
      rw [ih maxI _ (by simp only [List.length_append, List.length_singleton]; omega)]
      have hm : maxI - images.length = (maxI - (images.length + 1)) + 1 := by omega
      rw [List.append_assoc]
      congr 1
      simp only [List.length_append, List.length_singleton]
      rw [hm, List.range_succ_eq_map, List.map_cons, List.map_map]
      simp only [List.singleton_append, List.cons.injEq]
      constructor
      · trivial
      · apply List.map_congr_left
        intro j _
        simp only [Function.comp_apply, Nat.succ_eq_add_one]
        congr 1
        omega
    · rw [if_neg hlt]
      have : maxI - images.length = 0 := by omega
      simp [this]

/-- The padding step, started below quota, fills to the quota with numbered
placeholders. -/
theorem padImages_eq (maxI : Nat) (images : List String) :
    padImages maxI images
      = images ++ (List.range (maxI - images.length)).map
          (fun j => placeholderUrl (images.length + 1 + j)) := by
  unfold padImages
  apply padImagesFuel_eq
  omega

/-- C2 counterexample: at `k = 0` with a first item carrying a non-empty image
URL the selector returns one URL, not zero — the quota check runs only after
the conditional append. -/
theorem select_images_len_counterexample :
    (select_images_from_results [⟨none, none, none, some "x"⟩] 0).length ≠ 0 := by
  decide

/-- C2 (amended): for every result list and every `k ≥ 1`,
`select_images_from_results` returns exactly `k` URLs — the first `k` truthy
image URLs in result order, followed by placeholders numbered from the fill
count plus one. -/
theorem select_images_spec (rs : List NewsItem) (k : Nat) (hk : 1 ≤ k) :
    select_images_from_results rs k
      = (truthyImages rs).take k
        ++ (List.range (k - ((truthyImages rs).take k).length)).map
             (fun j => placeholderUrl (((truthyImages rs).take k).length + 1 + j))
    ∧ (select_images_from_results rs k).length = k := by
  have h1 : selectImagesAux k rs [] = (truthyImages rs).take k := by
    have := selectImagesAux_eq k rs [] (by simp only [List.length_nil]; omega)
    simpa using this
  have h2 : select_images_from_results rs k
      = (truthyImages rs).take k
        ++ (List.range (k - ((truthyImages rs).take k).length)).map
             (fun j => placeholderUrl (((truthyImages rs).take k).length + 1 + j)) := by
    unfold select_images_from_results
    rw [h1, padImages_eq]
  refine ⟨h2, ?_⟩
  rw [h2]
  have hle : ((truthyImages rs).take k).length ≤ k :=
    List.length_take_le k (truthyImages rs)
  simp only [List.length_append, List.length_map, List.length_range]
  omega

/-- Witness for C2 at a concrete input: one truthy image and one placeholder,
with length exactly 2. -/
theorem select_images_spec_witness :
    (select_images_from_results [⟨none, none, none, some "x"⟩] 2).length = 2 :=
  (select_images_spec [⟨none, none, none, some "x"⟩] 2 (by decide)).2

/-- The dedupe loop keeps a subsequence of its input. -/
theorem dedupeAux_sublist (l : List NewsItem) :
    ∀ seen, (dedupeAux seen l).Sublist l := by
  induction l with
  | nil => intro seen; simp [dedupeAux]
  | cons r rs ih =>
    intro seen
    simp only [dedupeAux]
    by_cases hx : dedupeKey r ∈ seen
    · rw [if_pos hx]
      exact (ih seen).cons r
    · rw [if_neg hx]
      exact (ih _).cons₂ r

/-- Every element surviving the dedupe loop has a key outside the seen set. -/
theorem mem_dedupeAux (l : List NewsItem) :
    ∀ seen r, r ∈ dedupeAux seen l → dedupeKey r ∉ seen := by
  induction l with
  | nil => intro seen r h; simp [dedupeAux] at h
  | cons x rs ih =>
    intro seen r h
    simp only [dedupeAux] at h
    by_cases hx : dedupeKey x ∈ seen
    · rw [if_pos hx] at h
      exact ih seen r h
    · rw [if_neg hx] at h
      rcases List.mem_cons.mp h with h1 | h2
      · subst h1
        exact hx
      · have hnotin := ih _ r h2
        intro hc
        exact hnotin (List.mem_cons_of_mem _ hc)

/-- The dedupe loop output has pairwise-distinct keys. -/
theorem dedupeAux_keys_nodup (l : List NewsItem) :
    ∀ seen, ((dedupeAux seen l).map dedupeKey).Nodup := by
  induction l with
  | nil => intro seen; simp [dedupeAux]
  | cons x rs ih =>
    intro seen
    simp only [dedupeAux]
    by_cases hx : dedupeKey x ∈ seen
    · rw [if_pos hx]
      exact ih seen
    · rw [if_neg hx]
      simp only [List.map_cons, List.nodup_cons]
      refine ⟨?_, ih _⟩
      intro hc
      rcases List.mem_map.mp hc with ⟨y, hy, hkey⟩
      exact mem_dedupeAux rs _ y hy (by rw [hkey]; exact List.mem_cons_self _ _)

/-- For any key not yet seen, the first element of the dedupe output with
that key is exactly the first element of the input with that key. -/
theorem dedupeAux_find? (l : List NewsItem) :
    ∀ (seen : List (Option String)) (k : Option String), k ∉ seen →
      (dedupeAux seen l).find? (fun x => dedupeKey x == k)
        = l.find? (fun x => dedupeKey x == k) := by
  induction l with
  | nil => intro seen k hk; simp [dedupeAux]
  | cons x rs ih =>
    intro seen k hk
    simp only [dedupeAux]
    by_cases hx : dedupeKey x ∈ seen
    · rw [if_pos hx]
      have hne : ¬ (dedupeKey x == k) = true := by
        simp only [beq_iff_eq]
        intro h
        exact hk (h ▸ hx)
      rw [List.find?_cons_of_neg (p := fun y => dedupeKey y == k) rs hne]
      exact ih seen k hk
    · rw [if_neg hx]
      by_cases he : (dedupeKey x == k) = true
      · rw [List.find?_cons_of_pos (p := fun y => dedupeKey y == k) _ he,
          List.find?_cons_of_pos (p := fun y => dedupeKey y == k) _ he]
      · rw [List.find?_cons_of_neg (p := fun y => dedupeKey y == k) _ he,
          List.find?_cons_of_neg (p := fun y => dedupeKey y == k) _ he]
        apply ih
        intro hc
        rcases List.mem_cons.mp hc with h1 | h2
        · simp only [beq_iff_eq] at he
          exact he h1.symm
        · exact hk h2

/-- C3: the merged result set of the two concatenated provider lists is a
subsequence of the input with pairwise-distinct dedupe keys; for every key its
representative is the first input element with that key (so the
first-encountered copy's fields are kept, in first-seen order); and the key is
the item's link, falling back to the title when the link is absent. -/
theorem dedupe_merge_spec (l1 l2 : List NewsItem) :
    (search_agent_merge (l1 ++ l2)).Sublist (l1 ++ l2)
    ∧ ((search_agent_merge (l1 ++ l2)).map dedupeKey).Nodup
    ∧ (∀ k : Option String,
        (search_agent_merge (l1 ++ l2)).find? (fun x => dedupeKey x == k)
          = (l1 ++ l2).find? (fun x => dedupeKey x == k))
    ∧ (∀ r : NewsItem,
        (r.link = none → dedupeKey r = r.title)
        ∧ (∀ s, r.link = some s → s ≠ "" → dedupeKey r = some s)) := by
  refine ⟨dedupeAux_sublist _ [], dedupeAux_keys_nodup _ [], ?_, ?_⟩
  · intro k
    exact dedupeAux_find? _ [] k (by simp)
  · intro r
    constructor
    · intro h
      simp [dedupeKey, pyOr, pyTruthy, h]
    · intro s hs hne
      simp [dedupeKey, pyOr, pyTruthy, hs, hne]

/-- Witness for C3: key fallback at a linkless item, key at a linked item, and
distinct keys for a concrete merge with a duplicated link across the two
provider lists. -/
theorem dedupe_merge_spec_witness :
    dedupeKey ⟨some "T2", none, none, none⟩
      = (⟨some "T2", none, none, none⟩ : NewsItem).title
    ∧ dedupeKey ⟨some "T", some "L", none, none⟩ = some "L"
    ∧ ((search_agent_merge
          ([⟨some "T", some "L", none, none⟩]
            ++ [⟨some "X", some "L", some "s", none⟩])).map dedupeKey).Nodup :=
  ⟨((dedupe_merge_spec [] []).2.2.2 ⟨some "T2", none, none, none⟩).1 rfl,
   ((dedupe_merge_spec [] []).2.2.2 ⟨some "T", some "L", none, none⟩).2 "L" rfl
     (by decide),
   (dedupe_merge_spec [⟨some "T", some "L", none, none⟩]
     [⟨some "X", some "L", some "s", none⟩]).2.1⟩

/-- C1 counterexample environment: ingestion yields one item, credentials are
configured, and the publish HTTP call raises a transport exception. -/
def envPublishRaises : Env :=
  { tavily := .ok [⟨some "t", some "l", none, none⟩]
    serper := .ok []
    llmKey := "k"
    llmTransport := fun _ => .ok ⟨some "s", none, "d"⟩
    fetchOk := fun _ => false
    botToken := "b"
    channelId := "c"
    post := .error "boom"
    today := "20260101" }

/-- C1 counterexample: ingestion yields a non-empty result set, yet the run
returns `false`, because the transport failure inside the publish call is not
caught by `send_to_telegram` and escapes to the orchestrator's top-level
handler. -/
theorem flow_publish_transport_counterexample :
    flowResults envPublishRaises ≠ [] ∧ (crewai_flow_run envPublishRaises).1 = false := by
  constructor
  · decide
  · rfl

/-- C1 (amended): the run returns `false` exactly when the deduplicated result
set is empty or an uncaught exception escapes a stage — a render failure or a
raised publish transport error.  Summarization and translation degradation,
image-fetch failures, missing publish credentials and non-success publish
statuses all leave the result `true` (they do not appear on the right-hand
side, which quantifies over every environment). -/
theorem flow_result_spec (env : Env) :
    (crewai_flow_run env).1 = false ↔
      (flowResults env = [] ∨ exceptIsOk (flowPdf env) = false
        ∨ exceptIsOk (flowSend env).1 = false) := by
  by_cases h : (flowResults env).isEmpty = true
  · have hl : flowResults env = [] := List.isEmpty_iff.mp h
    simp [crewai_flow_run, h, hl]
  · have hl : ¬ flowResults env = [] := by
      simpa [List.isEmpty_iff] using h
    rcases hp : flowPdf env with e | ops
    · simp [crewai_flow_run, h, hp, exceptIsOk, hl]
    · rcases hs : flowSend env with ⟨r, n⟩
      rcases r with e2 | b
      · simp [crewai_flow_run, h, hp, hs, exceptIsOk, hl]
      · simp [crewai_flow_run, h, hp, hs, exceptIsOk, hl]

/-- The documents persisted by a run: none when ingestion is empty or the
render raises, otherwise the single date-named document. -/
theorem pdfSaved_char (env : Env) :
    (crewai_flow_run env).2.pdfSaved =
      if (flowResults env).isEmpty then []
      else
        match flowPdf env with
        | .error _ => []
        | .ok ops => [("daily_summary_" ++ env.today ++ ".pdf", ops)] := by
  by_cases h : (flowResults env).isEmpty = true
  · simp [crewai_flow_run, h]
  · rcases hp : flowPdf env with e | ops
    · simp [crewai_flow_run, h, hp]
    · rcases hs : flowSend env with ⟨r, n⟩
      rcases r with e2 | b
      · simp [crewai_flow_run, h, hp, hs]
      · simp [crewai_flow_run, h, hp, hs]

/-- C5: rendering is deterministic and embeds no timestamp in the document
content — two runs in identical environments that differ only in the current
date persist byte-identical content operations, and the date reaches only the
file name `daily_summary_<date>.pdf`. -/
theorem render_idempotent_date_free (env : Env) (d1 d2 : String) :
    ((crewai_flow_run { env with today := d1 }).2.pdfSaved.map Prod.snd
      = (crewai_flow_run { env with today := d2 }).2.pdfSaved.map Prod.snd)
    ∧ ((crewai_flow_run { env with today := d1 }).2.pdfSaved.all
        (fun pr => pr.1 == "daily_summary_" ++ d1 ++ ".pdf")) = true := by
  have hres : ∀ d, flowResults { env with today := d } = flowResults env :=
    fun _ => rfl
  have hpdf : ∀ d, flowPdf { env with today := d } = flowPdf env :=
    fun _ => rfl
  rw [pdfSaved_char, pdfSaved_char]
  simp only [hres, hpdf]
  by_cases h : (flowResults env).isEmpty = true
  · simp [h]
  · rcases hp : flowPdf env with e | ops
    · simp [h, hp]
    · simp [h, hp]

/-- C10 counterexample: an "english" key whose digest is the empty string
satisfies the claimed precondition (the key is present) yet the render still
raises, because Python's `or` treats the empty string as falsy and the "en"
fallback is absent. -/
theorem english_lookup_counterexample :
    (List.lookup "english" [("english", "")]).isSome = true
    ∧ exceptIsOk (create_pdf [("english", "")] [] (fun _ => false)) = false := by
  constructor
  · rfl
  · rfl

/-- C10 (amended): the renderer is total exactly when the falsy-coalescing
English lookup — the value of "english" when non-empty, else the value of
"en" — yields a value; both keys absent (or falsy with no fallback) make it
raise.  The orchestrator establishes the precondition whenever the summary
digest is non-empty, having inserted "english" first. -/
theorem create_pdf_total_spec :
    (∀ (m : List (String × String)) (imgs : List String) (f : String → Bool),
      exceptIsOk (create_pdf m imgs f) = true ↔
        (pyOr (List.lookup "english" m) (List.lookup "en" m)).isSome = true)
    ∧ (∀ env : Env, flowSummary env ≠ "" → exceptIsOk (flowPdf env) = true) := by
  constructor
  · intro m imgs f
    unfold create_pdf
    cases h : pyOr (List.lookup "english" m) (List.lookup "en" m) with
    | none => simp [h, exceptIsOk]
    | some v => simp [h, exceptIsOk]
  · intro env hs
    have hl : List.lookup "english" (flowLangMap env) = some (flowSummary env) := rfl
    have hp : pyOr (List.lookup "english" (flowLangMap env))
        (List.lookup "en" (flowLangMap env)) = some (flowSummary env) := by
      rw [hl]
      simp [pyOr, pyTruthy, hs]
    unfold flowPdf create_pdf
    simp [hp, exceptIsOk]

/-- C10 witness environment: one result, LLM transport succeeding with a
non-empty digest. -/
def envRenderOk : Env :=
  { tavily := .ok [⟨some "t", some "l", none, none⟩]
    serper := .ok []
    llmKey := "k"
    llmTransport := fun _ => .ok ⟨some "s", none, "d"⟩
    fetchOk := fun _ => false
    botToken := ""
    channelId := ""
    post := .ok 200
    today := "d" }

/-- Witness for C10: a concrete environment with a non-empty summary renders
without error. -/
theorem create_pdf_total_spec_witness :
    flowSummary envRenderOk ≠ "" ∧ exceptIsOk (flowPdf envRenderOk) = true :=
  ⟨by decide, create_pdf_total_spec.2 envRenderOk (by decide)⟩

/-- Image-operation counting distributes over concatenation. -/
theorem imageOpCount_append (a b : List PdfOp) :
    imageOpCount (a ++ b) = imageOpCount a + imageOpCount b :=
  List.countP_append _ _ _

/-- Image-operation count of the empty operation list. -/
theorem imageOpCount_nil : imageOpCount [] = 0 := rfl

/-- Image-operation count of a cons cell. -/
theorem imageOpCount_cons (op : PdfOp) (ops : List PdfOp) :
    imageOpCount (op :: ops)
      = imageOpCount ops + (if isImageOp op then 1 else 0) := by
  simp [imageOpCount, List.countP_cons]

/-- Text lines emit no image operations. -/
theorem drawLines_no_image (lines : List String) :
    ∀ y : Int, imageOpCount (drawLines y lines).1 = 0 := by
  induction lines with
  | nil => intro y; simp [drawLines, imageOpCount]
  | cons l ls ih =>
    intro y
    simp only [drawLines]
    by_cases h : y < MARGIN + 50
    · rw [if_pos h]
      simp only [imageOpCount_append, imageOpCount_cons, imageOpCount_nil]
      simp [ih, isImageOp]
    · rw [if_neg h]
      simp only [imageOpCount_append, imageOpCount_cons, imageOpCount_nil]
      simp [ih, isImageOp]

/-- A titled text block emits no image operations. -/
theorem drawTextBlock_no_image (y : Int) (title text : String) :
    imageOpCount (drawTextBlock y title text).1 = 0 := by
  simp only [drawTextBlock, imageOpCount_append, imageOpCount_cons,
    imageOpCount_nil]
  simp [drawLines_no_image, isImageOp]

/-- With at most one image available, the language loop emits no image
operations at all: the second-image branch is guarded by `len(images) > 1`. -/
theorem langLoop_no_image_of_few (f : String → Bool) (imgs : List String)
    (hlen : imgs.length ≤ 1) :
    ∀ (m : List (String × String)) (i : Nat) (y : Int),
      imageOpCount (langLoop f imgs i y m).1 = 0 := by
  intro m
  induction m with
  | nil => intro i y; simp [langLoop, imageOpCount]
  | cons e rest ih =>
    intro i y
    obtain ⟨lang, text⟩ := e
    simp only [langLoop]
    by_cases hskip : (pyLower lang == "english" || pyLower lang == "en") = true
    · rw [if_pos hskip]
      exact ih _ _
    · rw [if_neg hskip]
      have hc : (i == 1 && decide (1 < imgs.length)) = false := by
        have hd : decide (1 < imgs.length) = false := by
          simp
          omega
        simp [hd]
      simp only [hc, Bool.false_eq_true, if_false]
      simp [imageOpCount_append, drawTextBlock_no_image, ih]

/-- From whole-map index 2 onwards the language loop never draws an image:
only the entry at index 1 can trigger the second-image placement. -/
theorem langLoop_no_image_from_two (f : String → Bool) (imgs : List String) :
    ∀ (m : List (String × String)) (i : Nat) (y : Int), 2 ≤ i →
      imageOpCount (langLoop f imgs i y m).1 = 0 := by
  intro m
  induction m with
  | nil => intro i y hi; simp [langLoop, imageOpCount]
  | cons e rest ih =>
    intro i y hi
    obtain ⟨lang, text⟩ := e
    simp only [langLoop]
    by_cases hskip : (pyLower lang == "english" || pyLower lang == "en") = true
    · rw [if_pos hskip]
      exact ih _ _ (by omega)
    · rw [if_neg hskip]
      have hc : (i == 1 && decide (1 < imgs.length)) = false := by
        have : (i == 1) = false := beq_eq_false_iff_ne.mpr (by omega)
        simp [this]
      simp only [hc, Bool.false_eq_true, if_false]
      have hih := ih (i + 1)
        (drawTextBlock y (pyCapitalize lang ++ " Summary") text).2 (by omega)
      simp [imageOpCount_append, drawTextBlock_no_image, hih]

set_option maxRecDepth 40000 in
/-- C4 counterexample: with English first, four languages and two fetchable
images, the second image is drawn before the "Hindi Summary" block — i.e.
before the second emitted non-English block, not after it. -/
theorem second_image_counterexample :
    ((opsOfExcept (create_pdf
        [("english", "e"), ("arabic", "a"), ("hindi", "h"), ("hebrew", "b")]
        ["u", "v"] (fun _ => true))).findIdx (isImageOpFor "v")
      < (opsOfExcept (create_pdf
        [("english", "e"), ("arabic", "a"), ("hindi", "h"), ("hebrew", "b")]
        ["u", "v"] (fun _ => true))).findIdx (isTitleOp "Hindi Summary"))
    ∧ ((opsOfExcept (create_pdf
        [("english", "e"), ("arabic", "a"), ("hindi", "h"), ("hebrew", "b")]
        ["u", "v"] (fun _ => true))).findIdx (isTitleOp "Hindi Summary")
      < (opsOfExcept (create_pdf
        [("english", "e"), ("arabic", "a"), ("hindi", "h"), ("hebrew", "b")]
        ["u", "v"] (fun _ => true))).length) := by
  constructor
  · decide
  · decide

/-- C4 (amended): the second image is attempted after the block at
whole-iteration index 1 — with English inserted first, the *first* emitted
non-English block — and after no later block; with fewer than two images the
language loop draws no image at all. -/
theorem second_image_spec :
    (∀ (f : String → Bool) (imgs : List String) (m : List (String × String))
        (i : Nat) (y : Int),
      imgs.length ≤ 1 → imageOpCount (langLoop f imgs i y m).1 = 0)
    ∧ (∀ (e l1 t1 : String) (rest : List (String × String)) (imgs : List String)
        (f : String → Bool),
      e ≠ "" → pyLower l1 ≠ "english" → pyLower l1 ≠ "en" → 1 < imgs.length →
      let eng := drawTextBlock PAGE_TOP "English Summary" e
      let i1 := firstImageOps imgs f eng.2
      let b1 := drawTextBlock i1.2 (pyCapitalize l1 ++ " Summary") t1
      let si := secondImageOps imgs f b1.2
      let rl := langLoop f imgs 2 si.2 rest
      create_pdf (("english", e) :: (l1, t1) :: rest) imgs f
        = .ok (eng.1 ++ i1.1 ++ b1.1 ++ si.1 ++ rl.1 ++ [PdfOp.save])
      ∧ imageOpCount rl.1 = 0) := by
  constructor
  · intro f imgs m i y hlen
    exact langLoop_no_image_of_few f imgs hlen m i y
  · intro e l1 t1 rest imgs f he h1 h2 hlen
    intro eng i1 b1 si rl
    refine ⟨?_, langLoop_no_image_from_two f imgs rest 2 si.2 (by omega)⟩
    have hscrut : pyOr (List.lookup "english" (("english", e) :: (l1, t1) :: rest))
        (List.lookup "en" (("english", e) :: (l1, t1) :: rest)) = some e := by
      have hlk : List.lookup "english" (("english", e) :: (l1, t1) :: rest)
          = some e := rfl
      rw [hlk]
      simp [pyOr, pyTruthy, he]
    unfold create_pdf
    simp only [hscrut]
    have hstep0 : ∀ y0 : Int,
        langLoop f imgs 0 y0 (("english", e) :: (l1, t1) :: rest)
          = langLoop f imgs 1 y0 ((l1, t1) :: rest) := by
      intro y0
      rfl
    rw [hstep0]
    have hskip : (pyLower l1 == "english" || pyLower l1 == "en") = false := by
      simp [h1, h2]
    simp only [langLoop, hskip, Bool.false_eq_true, if_false]
    have hc : ((1 : Nat) == 1 && decide (1 < imgs.length)) = true := by
      simp [hlen]
    simp only [hc, if_true]
    simp [List.append_assoc]

/-- Witness for C4: the skip part at a single-image set, and the placement
part at a concrete English-first map with two fetchable images. -/
theorem second_image_spec_witness :
    imageOpCount (langLoop (fun _ => true) ["u"] 0 752 [("arabic", "a")]).1 = 0
    ∧ (let eng := drawTextBlock PAGE_TOP "English Summary" "e"
       let i1 := firstImageOps ["u", "v"] (fun _ => true) eng.2
       let b1 := drawTextBlock i1.2 (pyCapitalize "arabic" ++ " Summary") "a"
       let si := secondImageOps ["u", "v"] (fun _ => true) b1.2
       let rl := langLoop (fun _ => true) ["u", "v"] 2 si.2 [("hindi", "h")]
       create_pdf (("english", "e") :: ("arabic", "a") :: [("hindi", "h")])
           ["u", "v"] (fun _ => true)
         = .ok (eng.1 ++ i1.1 ++ b1.1 ++ si.1 ++ rl.1 ++ [PdfOp.save])
       ∧ imageOpCount rl.1 = 0) :=
  ⟨second_image_spec.1 (fun _ => true) ["u"] [("arabic", "a")] 0 752 (by decide),
   second_image_spec.2 "e" "arabic" "a" [("hindi", "h")] ["u", "v"] (fun _ => true)
     (by decide) (by decide) (by decide) (by decide)⟩

end DailySummary
